import Mathlib

/-
Verification of the PICTURE-D thermo client frame synchronizer and decoder
(src/thermo-client/thermo_client.c) against its natural-language specification.

The embedding models bytes as naturals, the serial port as a sequence of
events (bursts of available bytes, poll timeouts, I/O errors), and translates
thermo_client_read and thermo_client_init line by line from the C source.
-/

namespace PiccThermo

/-- Bytes on the wire are modelled as naturals (values below 256 where it matters). -/
abbrev Byte := Nat

/-- Embedded thermal_data_s from thermo_client.h: char type; uint32_t source;
float value. The value field is kept as its four raw bytes, since the C code
only ever memcpy-s those bytes and performs no floating-point arithmetic;
source is the native (little-endian, per the arm build targets) u32 those four
bytes denote. -/
structure thermal_data_s where
  type : Byte
  source : Nat
  value : List Byte
deriving DecidableEq, Inhabited

/-- Embedded static char pattern[] = "CHRIS," from thermo_client.c line 74. -/
def pattern : List Byte := [67, 72, 82, 73, 83, 44]

/-- Embedded pattern_length = sizeof(pattern) - 1 = 6 (line 75). -/
def pattern_length : Nat := 6

/-- Native (little-endian) u32 read of four bytes, as memcpy into uint32_t does
on the little-endian arm targets this repository builds for. -/
def u32le (bs : List Byte) : Nat :=
  bs.getD 0 0 + 256 * bs.getD 1 0 + 65536 * bs.getD 2 0 + 16777216 * bs.getD 3 0

/-- Native (little-endian) four-byte encoding of a u32. -/
def u32bytes (n : Nat) : List Byte :=
  [n % 256, n / 256 % 256, n / 65536 % 256, n / 16777216 % 256]

/-- One event observed by the poll loop of thermo_client_read: a burst of bytes
that became available together (an underlying read returns at most what is in
the current burst, which is how a read can deliver fewer bytes than requested),
a 100 ms poll timeout with no data (poll returns 0, line 96), or an I/O failure
(poll returning negative, POLLERR/POLLHUP revents, or read returning negative;
all three paths return a negative value, lines 92-110). -/
inductive Ev
| burst (bytes : List Byte)
| timeout
| err
deriving DecidableEq

/-- Outcome of one thermo_client_read call. ret carries the C return value
(1 record, 0 incomplete, -1 failure), the final contents of the caller's data
struct (none models a NULL pointer), and the unconsumed buffered bytes and
events, so that successive calls can be chained. pending models the situation
where the buffered bytes and events are exhausted without a return: the C loop
keeps polling forever (its guard `while (running)` tests the pointer, which is
never NULL after the substitution at lines 84-87, so the loop cannot exit). -/
inductive ReadOutcome
| ret (code : Int) (dataOut : Option thermal_data_s) (buf : List Byte) (evs : List Ev)
| pending
deriving DecidableEq

/-- Embedded marker-scan step, lines 116-123: on a match advance the index,
otherwise reset it to zero. -/
def scanStep (index : Nat) (c : Byte) : Nat :=
  if c = pattern.getD index 0 then index + 1 else 0

/-- Embedded payload handling after a full marker match, lines 126-143: a single
read of up to 10 bytes (1 type + 1 comma + 4 source + 4 value); if fewer than
10 bytes arrive or byte 1 is not a comma, return 0 with the caller's struct
untouched; otherwise fill the struct from the fixed offsets and return 1. -/
def doPayload (d0 : thermal_data_s) (buf : List Byte) (evs : List Ev) : ReadOutcome :=
  if (buf.take 10).length < 10 then .ret 0 (some d0) (buf.drop 10) evs
  else if (buf.take 10).getD 1 0 ≠ 44 then .ret 0 (some d0) (buf.drop 10) evs
  else .ret 1 (some ⟨(buf.take 10).getD 0 0, u32le (((buf.take 10).drop 2).take 4),
      ((buf.take 10).drop 6).take 4⟩) (buf.drop 10) evs

/-- Byte-at-a-time scan (lines 106-124) over the bytes currently available:
each loop iteration reads one byte and feeds it to scanStep; when the index
reaches pattern_length the payload read happens from the remaining available
bytes. Returns the loop outcome, or the in-progress match index once the
available bytes are exhausted (the loop then polls for more). -/
def runChunk (d0 : thermal_data_s) : List Byte → List Ev → Nat → ReadOutcome ⊕ Nat
  | [], _, index => .inr index
  | c :: rest, evs, index =>
    if scanStep index c = pattern_length then .inl (doPayload d0 rest evs)
    else runChunk d0 rest evs (scanStep index c)

/-- Embedded poll loop, lines 88-105: poll bounded to 100 ms; a timeout is a
plain continue (line 99), an error or hangup returns -1, a burst hands the
bytes to the scanner. When no events remain the C loop polls forever (the
guard `while (running)` tests the pointer, never the pointed-to flag), which
the model reports as pending. -/
def pollLoop (d0 : thermal_data_s) : List Ev → Nat → ReadOutcome
  | [], _ => .pending
  | Ev.timeout :: es, index => pollLoop d0 es index
  | Ev.err :: es, _ => .ret (-1) (some d0) [] es
  | Ev.burst bs :: es, index =>
    match runChunk d0 bs es index with
    | .inl out => out
    | .inr i => pollLoop d0 es i

/-- Body of the read loop of thermo_client_read: consume any bytes still
buffered from a previous call, then poll for events. -/
def readLoop (d0 : thermal_data_s) (buf : List Byte) (evs : List Ev) (index : Nat) :
    ReadOutcome :=
  match runChunk d0 buf evs index with
  | .inl out => out
  | .inr i => pollLoop d0 evs i

/-- Embedded thermo_client_read (lines 67-148). fd is the descriptor, dataPtr
the output struct pointer (none models NULL), running the cancellation flag
pointer (none models NULL, some b a flag currently holding b). Lines 69-73
reject a negative fd or NULL data with -1 before any poll or read. Lines 83-87
substitute an internal always-one flag for a NULL running pointer. Line 88
begins `while (running)`, whose condition tests the pointer itself (after the
substitution it is never NULL, so the guard is constantly true and the
pointed-to flag value is never consulted); were the guard false the function
would fall through to `return 1` (line 147) without touching the struct.
The local match index starts at 0 on every call (line 79). -/
def thermo_client_read (fd : Int) (dataPtr : Option thermal_data_s)
    (running : Option Bool) (buf : List Byte) (evs : List Ev) : ReadOutcome :=
  if fd < 0 ∨ dataPtr = none then .ret (-1) dataPtr buf evs
  else
    let d0 := dataPtr.getD default
    let ptr : Option Bool := if running = none then some true else running
    if ptr = none then .ret 1 dataPtr buf evs
    else readLoop d0 buf evs 0

/-- Boolean check that scanning a byte sequence from a given match index never
completes a marker match and ends with the match index back at zero. -/
def scanSafe : List Byte → Nat → Bool
  | [], i => i == 0
  | c :: rest, i => (scanStep i c != pattern_length) && scanSafe rest (scanStep i c)

/-- Wire frame builder: marker, kind byte, comma, u32 source, four value bytes. -/
def mkFrame (k : Byte) (src : Nat) (vb : List Byte) : List Byte :=
  pattern ++ [k, 44] ++ u32bytes src ++ vb

/-- Wire encoding of a decoded record, for the round-trip property. -/
def encode_record (r : thermal_data_s) : List Byte :=
  pattern ++ [r.type, 44] ++ u32bytes r.source ++ r.value

/-- Oracle for the system calls thermo_client_init makes: whether open
succeeds (and with which descriptor), and whether tcgetattr / tcsetattr
succeed. -/
structure InitEnv where
  openRes : Option Nat
  tcgetattrOk : Bool
  tcsetattrOk : Bool
deriving DecidableEq

/-- Embedded thermo_client_init (lines 24-65): returns the C return value
(descriptor on success, -1 on failure) together with the list of descriptors
closed during the call. open failing returns -1 with nothing to close;
tcgetattr or tcsetattr failing closes the opened descriptor and returns -1;
otherwise the configured descriptor is returned and nothing is closed. -/
def thermo_client_init (env : InitEnv) : Int × List Nat :=
  match env.openRes with
  | none => (-1, [])
  | some fd =>
    if env.tcgetattrOk = false then (-1, [fd])
    else if env.tcsetattrOk = false then (-1, [fd])
    else ((fd : Int), [])

/-- Result of one Locked-state read as the specification describes it. -/
inductive LockedResult
| record (d : thermal_data_s)
| desync
| incomplete
deriving DecidableEq

/-- Follows the specification's words (section 4.2, Locked state), for
comparison with the embedded code: collect exactly 16 bytes, verify the first
6 equal the marker (mismatch is a desync), then decode kind, source and value
from the fixed offsets. The embedded code has no such state or code path. -/
def lockedReadSpec (stream : List Byte) : LockedResult :=
  if (stream.take 16).length < 16 then .incomplete
  else if (stream.take 16).take 6 ≠ pattern then .desync
  else .record ⟨(stream.take 16).getD 6 0, u32le (((stream.take 16).drop 8).take 4),
      ((stream.take 16).drop 12).take 4⟩

/-- Sample initial contents of the caller's struct. -/
def d0ex : thermal_data_s := ⟨0, 0, []⟩

/-- Sample 10-byte payload: kind 'T', comma, u32le 7, the four bytes of the
IEEE-754 float 23.5 (0x41BC0000, little-endian). -/
def payloadEx : List Byte := [84, 44, 7, 0, 0, 0, 0, 0, 188, 65]

/-- Little-endian u32 composed of four bytes decodes back to those bytes. -/
lemma u32bytes_u32le (e0 e1 e2 e3 : Nat) (h0 : e0 < 256) (h1 : e1 < 256)
    (h2 : e2 < 256) (h3 : e3 < 256) :
    u32bytes (u32le [e0, e1, e2, e3]) = [e0, e1, e2, e3] := by
  show [(e0 + 256 * e1 + 65536 * e2 + 16777216 * e3) % 256,
        (e0 + 256 * e1 + 65536 * e2 + 16777216 * e3) / 256 % 256,
        (e0 + 256 * e1 + 65536 * e2 + 16777216 * e3) / 65536 % 256,
        (e0 + 256 * e1 + 65536 * e2 + 16777216 * e3) / 16777216 % 256]
      = [e0, e1, e2, e3]
  have k0 : (e0 + 256 * e1 + 65536 * e2 + 16777216 * e3) % 256 = e0 := by omega
  have k1 : (e0 + 256 * e1 + 65536 * e2 + 16777216 * e3) / 256 % 256 = e1 := by omega
  have k2 : (e0 + 256 * e1 + 65536 * e2 + 16777216 * e3) / 65536 % 256 = e2 := by omega
  have k3 : (e0 + 256 * e1 + 65536 * e2 + 16777216 * e3) / 16777216 % 256 = e3 := by omega
  rw [k0, k1, k2, k3]

/-- Byte encoding of a u32 below 2^32 reads back as the same u32. -/
lemma u32le_u32bytes (s : Nat) (hs : s < 4294967296) : u32le (u32bytes s) = s := by
  show s % 256 + 256 * (s / 256 % 256) + 65536 * (s / 65536 % 256)
      + 16777216 * (s / 16777216 % 256) = s
  omega

/-- Scanning bytes that never complete a marker match and end at index zero
leaves the scanner exactly where a fresh scan of the remaining bytes starts. -/
lemma runChunk_scanSafe (d0 : thermal_data_s) :
    ∀ (g : List Byte) (i : Nat), scanSafe g i = true →
      ∀ (rest : List Byte) (evs : List Ev),
        runChunk d0 (g ++ rest) evs i = runChunk d0 rest evs 0 := by
  intro g
  induction g with
  | nil =>
    intro i h rest evs
    simp only [scanSafe, beq_iff_eq] at h
    subst h
    rfl
  | cons ch g ih =>
    intro i h rest evs
    simp only [scanSafe, Bool.and_eq_true, bne_iff_ne, ne_eq] at h
    obtain ⟨h1, h2⟩ := h
    rw [List.cons_append]
    show (if scanStep i ch = pattern_length then .inl (doPayload d0 (g ++ rest) evs)
          else runChunk d0 (g ++ rest) evs (scanStep i ch)) = runChunk d0 rest evs 0
    rw [if_neg h1]
    exact ih (scanStep i ch) h2 rest evs

/-- Reading a single burst holding exactly one well-formed frame yields the
record with that frame's fields. -/
lemma read_single_frame (d0 : thermal_data_s) (k s a b c d : Nat)
    (hs : s < 4294967296) :
    thermo_client_read 3 (some d0) none [] [Ev.burst (mkFrame k s [a, b, c, d])]
      = .ret 1 (some ⟨k, s, [a, b, c, d]⟩) [] [] := by
  have h1 : thermo_client_read 3 (some d0) none [] [Ev.burst (mkFrame k s [a, b, c, d])]
      = .ret 1 (some ⟨k, u32le (u32bytes s), [a, b, c, d]⟩) [] [] := rfl
  rw [h1, u32le_u32bytes s hs]

/-- Claim C1 (code defect): clearing the externally supplied cancellation flag
is supposed to make the read return within one bounded wait, but the loop
guard `while (running)` tests the pointer (never NULL after the substitution),
not the flag: with the flag cleared and a silent port the read never returns,
and the outcome is independent of the flag's value. -/
theorem C1_cancellation_ignored :
    thermo_client_read 3 (some d0ex) (some false) [] [Ev.timeout, Ev.timeout] = .pending
    ∧ ∀ (buf : List Byte) (evs : List Ev) (b : Bool),
        thermo_client_read 3 (some d0ex) (some b) buf evs
          = thermo_client_read 3 (some d0ex) (some true) buf evs :=
  ⟨rfl, fun _ _ _ => rfl⟩

/-- Claim C2 counterexample: after a first successful frame read, a second call
on the remaining stream (two garbage bytes then a valid frame) again performs
the byte-at-a-time scan and succeeds, while a Locked-state read of the same
remaining stream, as the specification describes it, would desync: no state
transitions to Locked and nothing persists across calls. -/
theorem C2_counterexample :
    thermo_client_read 3 (some d0ex) none []
        [Ev.burst (mkFrame 84 7 [0, 0, 188, 65] ++ ([88, 88] ++ mkFrame 72 3 [0, 0, 100, 66]))]
      = .ret 1 (some ⟨84, 7, [0, 0, 188, 65]⟩)
          ([88, 88] ++ mkFrame 72 3 [0, 0, 100, 66]) []
    ∧ thermo_client_read 3 (some ⟨84, 7, [0, 0, 188, 65]⟩) none
        ([88, 88] ++ mkFrame 72 3 [0, 0, 100, 66]) []
      = .ret 1 (some ⟨72, 3, [0, 0, 100, 66]⟩) [] []
    ∧ lockedReadSpec ([88, 88] ++ mkFrame 72 3 [0, 0, 100, 66]) = .desync := by
  refine ⟨rfl, rfl, by decide⟩

/-- Claim C2 amended: no synchronizer state persists across calls: the match
index is a local reset to zero on every call and there is no Locked state, so
a call immediately following a successful read again scans byte-at-a-time,
skipping garbage, instead of performing a Locked fixed-size frame read. -/
theorem C2_rescans_each_call (d0 : thermal_data_s)
    (k1 s1 a1 b1 c1 d1 k2 s2 a2 b2 c2 d2 : Nat)
    (hs1 : s1 < 4294967296) (hs2 : s2 < 4294967296) :
    thermo_client_read 3 (some d0) none []
        [Ev.burst (mkFrame k1 s1 [a1, b1, c1, d1]
          ++ ([88, 88] ++ mkFrame k2 s2 [a2, b2, c2, d2]))]
      = .ret 1 (some ⟨k1, s1, [a1, b1, c1, d1]⟩)
          ([88, 88] ++ mkFrame k2 s2 [a2, b2, c2, d2]) []
    ∧ thermo_client_read 3 (some ⟨k1, s1, [a1, b1, c1, d1]⟩) none
        ([88, 88] ++ mkFrame k2 s2 [a2, b2, c2, d2]) []
      = .ret 1 (some ⟨k2, s2, [a2, b2, c2, d2]⟩) [] [] := by
  constructor
  · have h1 : thermo_client_read 3 (some d0) none []
        [Ev.burst (mkFrame k1 s1 [a1, b1, c1, d1]
          ++ ([88, 88] ++ mkFrame k2 s2 [a2, b2, c2, d2]))]
        = .ret 1 (some ⟨k1, u32le (u32bytes s1), [a1, b1, c1, d1]⟩)
            ([88, 88] ++ mkFrame k2 s2 [a2, b2, c2, d2]) [] := rfl
    rw [h1, u32le_u32bytes s1 hs1]
  · have h2 : thermo_client_read 3 (some ⟨k1, s1, [a1, b1, c1, d1]⟩) none
        ([88, 88] ++ mkFrame k2 s2 [a2, b2, c2, d2]) []
        = .ret 1 (some ⟨k2, u32le (u32bytes s2), [a2, b2, c2, d2]⟩) [] [] := rfl
    rw [h2, u32le_u32bytes s2 hs2]

/-- Witness for the amended C2 theorem at concrete frames. -/
theorem C2_rescans_each_call_witness :
    thermo_client_read 3 (some d0ex) none []
        [Ev.burst (mkFrame 84 1 [9, 9, 9, 9] ++ ([88, 88] ++ mkFrame 72 2 [8, 8, 8, 8]))]
      = .ret 1 (some ⟨84, 1, [9, 9, 9, 9]⟩) ([88, 88] ++ mkFrame 72 2 [8, 8, 8, 8]) []
    ∧ thermo_client_read 3 (some ⟨84, 1, [9, 9, 9, 9]⟩) none
        ([88, 88] ++ mkFrame 72 2 [8, 8, 8, 8]) []
      = .ret 1 (some ⟨72, 2, [8, 8, 8, 8]⟩) [] [] :=
  C2_rescans_each_call d0ex 84 1 9 9 9 9 72 2 8 8 8 8 (by decide) (by decide)

/-- Claim C3 counterexample: the same frame delivered whole decodes to a
record, but delivered with the payload split across two read boundaries it
yields return value 0 and no record: there is no accumulation across
underlying reads, so the two deliveries are not equivalent. -/
theorem C3_counterexample :
    thermo_client_read 3 (some d0ex) none [] [Ev.burst (pattern ++ payloadEx)]
      = .ret 1 (some ⟨84, 7, [0, 0, 188, 65]⟩) [] []
    ∧ thermo_client_read 3 (some d0ex) none []
        [Ev.burst (pattern ++ payloadEx.take 4), Ev.burst (payloadEx.drop 4)]
      = .ret 0 (some d0ex) [] [Ev.burst (payloadEx.drop 4)] := by
  refine ⟨by decide, by decide⟩

/-- Claim C3 amended: after a marker match the payload is read by one single
underlying read with no accumulation: whenever the frame is split so that the
payload read sees fewer than its 10 bytes, the call returns 0, discards the
partial payload, and produces no record. -/
theorem C3_no_accumulation (d0 : thermal_data_s) (j : Nat) (hj : j < 10) :
    thermo_client_read 3 (some d0) none []
        [Ev.burst (pattern ++ payloadEx.take j), Ev.burst (payloadEx.drop j)]
      = .ret 0 (some d0) [] [Ev.burst (payloadEx.drop j)] := by
  interval_cases j <;> rfl

/-- Witness for the amended C3 theorem: payload split after 4 bytes. -/
theorem C3_no_accumulation_witness :
    4 < 10 ∧
    thermo_client_read 3 (some d0ex) none []
        [Ev.burst (pattern ++ payloadEx.take 4), Ev.burst (payloadEx.drop 4)]
      = .ret 0 (some d0ex) [] [Ev.burst (payloadEx.drop 4)] :=
  ⟨by decide, C3_no_accumulation d0ex 4 (by decide)⟩

/-- Claim C4 counterexample: a frame whose kind byte is 'X' (88), with valid
marker and separator, decodes to a record carrying kind 88: the code performs
no kind validation and such a frame is not a decode error. -/
theorem C4_counterexample :
    thermo_client_read 3 (some d0ex) none [] [Ev.burst (mkFrame 88 7 [0, 0, 0, 0])]
      = .ret 1 (some ⟨88, 7, [0, 0, 0, 0]⟩) [] [] := by
  decide

/-- Claim C4 amended: the decoder does not validate the kind byte: every frame
with a valid marker and separator decodes to a record carrying its raw kind
byte, including kind bytes that are neither 'T' (84) nor 'H' (72). -/
theorem C4_kind_unvalidated (d0 : thermal_data_s) (k s a b c d : Nat)
    (_hk1 : k ≠ 84) (_hk2 : k ≠ 72) (hs : s < 4294967296) :
    thermo_client_read 3 (some d0) none [] [Ev.burst (mkFrame k s [a, b, c, d])]
      = .ret 1 (some ⟨k, s, [a, b, c, d]⟩) [] [] :=
  read_single_frame d0 k s a b c d hs

/-- Witness for the amended C4 theorem at kind byte 88. -/
theorem C4_kind_unvalidated_witness :
    (88 ≠ 84) ∧ (88 ≠ 72) ∧
    thermo_client_read 3 (some d0ex) none [] [Ev.burst (mkFrame 88 9 [1, 2, 3, 4])]
      = .ret 1 (some ⟨88, 9, [1, 2, 3, 4]⟩) [] [] :=
  ⟨by decide, by decide,
    C4_kind_unvalidated d0ex 88 9 1 2 3 4 (by decide) (by decide) (by decide)⟩

/-- Claim C5 counterexample: a single garbage byte 'C' preceding a valid
marker and frame makes the scan consume the frame's leading 'C' inside a
failed partial match (the reset is not overlap-aware), so the valid frame is
missed entirely and the read keeps waiting instead of decoding it. -/
theorem C5_counterexample :
    thermo_client_read 3 (some d0ex) none []
        [Ev.burst (67 :: mkFrame 84 7 [0, 0, 188, 65])] = .pending := by
  decide

/-- Claim C5 amended: garbage preceding a valid frame is consumed without
producing a record and the frame then decodes, provided the garbage's byte
scan never completes a marker match and leaves the match index at zero;
garbage that ends in a partial marker prefix (such as a lone 'C') can instead
make the following valid frame be missed. -/
theorem C5_garbage_skipped (d0 : thermal_data_s) (g : List Byte) (k s a b c d : Nat)
    (hg : scanSafe g 0 = true) (hs : s < 4294967296) :
    thermo_client_read 3 (some d0) none [] [Ev.burst (g ++ mkFrame k s [a, b, c, d])]
      = .ret 1 (some ⟨k, s, [a, b, c, d]⟩) [] [] := by
  have h1 : thermo_client_read 3 (some d0) none [] [Ev.burst (g ++ mkFrame k s [a, b, c, d])]
      = (match runChunk d0 (g ++ mkFrame k s [a, b, c, d]) [] 0 with
         | .inl out => out
         | .inr i => pollLoop d0 [] i) := rfl
  rw [h1, runChunk_scanSafe d0 g 0 hg (mkFrame k s [a, b, c, d]) []]
  have h2 : (match runChunk d0 (mkFrame k s [a, b, c, d]) [] 0 with
         | .inl out => out
         | .inr i => pollLoop d0 [] i)
      = .ret 1 (some ⟨k, u32le (u32bytes s), [a, b, c, d]⟩) [] [] := rfl
  rw [h2, u32le_u32bytes s hs]

/-- Witness for the amended C5 theorem: garbage 88,67,88 (including an inner
partial marker match that resets cleanly) before a valid frame. -/
theorem C5_garbage_skipped_witness :
    scanSafe [88, 67, 88] 0 = true ∧
    thermo_client_read 3 (some d0ex) none []
        [Ev.burst ([88, 67, 88] ++ mkFrame 84 5 [1, 2, 3, 4])]
      = .ret 1 (some ⟨84, 5, [1, 2, 3, 4]⟩) [] [] :=
  ⟨by decide, C5_garbage_skipped d0ex [88, 67, 88] 84 5 1 2 3 4 (by decide) (by decide)⟩

/-- Claim C6: every well-formed 16-byte frame (valid marker, separator comma,
kind 'T' or 'H') delivered intact decodes to a record whose kind, source and
value equal the encoded fields in native byte order, and re-encoding the
record reproduces the original frame. -/
theorem C6_wellformed_roundtrip (d0 : thermal_data_s) (k e0 e1 e2 e3 a b c d : Nat)
    (_hk : k = 84 ∨ k = 72) (h0 : e0 < 256) (h1 : e1 < 256) (h2 : e2 < 256)
    (h3 : e3 < 256) :
    thermo_client_read 3 (some d0) none []
        [Ev.burst (pattern ++ [k, 44, e0, e1, e2, e3, a, b, c, d])]
      = .ret 1 (some ⟨k, u32le [e0, e1, e2, e3], [a, b, c, d]⟩) [] []
    ∧ encode_record ⟨k, u32le [e0, e1, e2, e3], [a, b, c, d]⟩
      = pattern ++ [k, 44, e0, e1, e2, e3, a, b, c, d] := by
  constructor
  · rfl
  · show pattern ++ [k, 44] ++ u32bytes (u32le [e0, e1, e2, e3]) ++ [a, b, c, d]
        = pattern ++ [k, 44, e0, e1, e2, e3, a, b, c, d]
    rw [u32bytes_u32le e0 e1 e2 e3 h0 h1 h2 h3]
    rfl

/-- Witness for C6: the specification's example frame, kind 'T', u32 source 7,
float value 23.5 (bytes 0,0,188,65 little-endian), decodes to exactly those
fields and re-encodes to the original bytes. -/
theorem C6_wellformed_roundtrip_witness :
    (84 = 84 ∨ 84 = 72) ∧
    (thermo_client_read 3 (some d0ex) none []
        [Ev.burst (pattern ++ [84, 44, 7, 0, 0, 0, 0, 0, 188, 65])]
      = .ret 1 (some ⟨84, 7, [0, 0, 188, 65]⟩) [] []
    ∧ encode_record ⟨84, 7, [0, 0, 188, 65]⟩
      = pattern ++ [84, 44, 7, 0, 0, 0, 0, 0, 188, 65]) :=
  ⟨Or.inl rfl, C6_wellformed_roundtrip d0ex 84 7 0 0 0 0 0 188 65 (Or.inl rfl)
      (by decide) (by decide) (by decide) (by decide)⟩

/-- Claim C7: after a full marker match, if the single payload read delivers
fewer than 10 bytes or the separator byte at payload offset 1 is not a comma,
the call returns 0 and the caller's struct is left exactly as it was. -/
theorem C7_incomplete_no_record (d0 : thermal_data_s) (pl : List Byte) (evs : List Ev)
    (h : (pl.take 10).length < 10 ∨ (pl.take 10).getD 1 0 ≠ 44) :
    thermo_client_read 3 (some d0) none [] (Ev.burst (pattern ++ pl) :: evs)
      = .ret 0 (some d0) (pl.drop 10) evs := by
  have h1 : thermo_client_read 3 (some d0) none [] (Ev.burst (pattern ++ pl) :: evs)
      = doPayload d0 pl evs := rfl
  rw [h1]
  unfold doPayload
  by_cases hA : (pl.take 10).length < 10
  · rw [if_pos hA]
  · rcases h with h | h
    · exact absurd h hA
    · rw [if_neg hA, if_pos h]

/-- Witness for C7: a payload of only two bytes after the marker yields return
value 0 with the struct unchanged. -/
theorem C7_incomplete_no_record_witness :
    ((([84, 88] : List Byte).take 10).length < 10
      ∨ (([84, 88] : List Byte).take 10).getD 1 0 ≠ 44) ∧
    thermo_client_read 3 (some d0ex) none [] [Ev.burst (pattern ++ [84, 88])]
      = .ret 0 (some d0ex) [] [] :=
  ⟨Or.inl (by decide), C7_incomplete_no_record d0ex [84, 88] [] (Or.inl (by decide))⟩

/-- Claim C8: whenever thermo_client_init fails at any stage (open, tcgetattr,
tcsetattr), it returns -1 and no handle, and a descriptor that was opened is
closed before the failure is signaled. -/
theorem C8_init_failure_cleanup (env : InitEnv)
    (h : env.openRes = none ∨ env.tcgetattrOk = false ∨ env.tcsetattrOk = false) :
    (thermo_client_init env).1 = -1 ∧
      (∀ fd, env.openRes = some fd → (thermo_client_init env).2 = [fd]) ∧
      (env.openRes = none → (thermo_client_init env).2 = []) := by
  obtain ⟨o, g, s⟩ := env
  rcases o with _ | fd <;> cases g <;> cases s <;> simp_all [thermo_client_init]

/-- Witness for C8: tcsetattr failing on descriptor 5 yields -1 and closes 5. -/
theorem C8_init_failure_cleanup_witness :
    (thermo_client_init ⟨some 5, true, false⟩).1 = -1 ∧
      (thermo_client_init ⟨some 5, true, false⟩).2 = [5] :=
  ⟨(C8_init_failure_cleanup ⟨some 5, true, false⟩ (Or.inr (Or.inr rfl))).1,
   (C8_init_failure_cleanup ⟨some 5, true, false⟩ (Or.inr (Or.inr rfl))).2.1 5 rfl⟩

/-- Claim C9: a negative descriptor or NULL data pointer makes
thermo_client_read return -1 immediately, with no poll or read performed and
the output untouched. -/
theorem C9_invalid_args (fd : Int) (dataPtr : Option thermal_data_s)
    (running : Option Bool) (buf : List Byte) (evs : List Ev)
    (h : fd < 0 ∨ dataPtr = none) :
    thermo_client_read fd dataPtr running buf evs = .ret (-1) dataPtr buf evs := by
  unfold thermo_client_read
  rw [if_pos h]

/-- Witness for C9 at descriptor -1. -/
theorem C9_invalid_args_witness :
    ((-1 : Int) < 0 ∨ (some d0ex : Option thermal_data_s) = none) ∧
    thermo_client_read (-1) (some d0ex) none [] [] = .ret (-1) (some d0ex) [] [] :=
  ⟨Or.inl (by decide),
    C9_invalid_args (-1) (some d0ex) none [] [] (Or.inl (by decide))⟩

/-- Claim C10: a NULL cancellation-flag pointer is accepted: the code
substitutes an internal always-set flag instead of dereferencing NULL, and the
read behaves identically to a read given that substituted flag. -/
theorem C10_null_flag (fd : Int) (dataPtr : Option thermal_data_s)
    (buf : List Byte) (evs : List Ev) :
    thermo_client_read fd dataPtr none buf evs
      = thermo_client_read fd dataPtr (some true) buf evs := rfl

end PiccThermo
